import Mathlib

/-!
Verification of the blog-api repository: a shallow embedding of its
credential, token-claim, service and handler layers, with theorems settling
the specification claims about them.

Conventions of the embedding:
* Go strings whose individual code points matter (URL parameters, the
  expected-claim argument of `jwt.CheckClaim`) are `GoStr`, a list of
  Unicode code points; ordinary strings (usernames, titles, messages) are
  Lean `String`s.
* Machine integers (`int`, `int64`, JWT numeric claims decoded to
  `float64`, whose values here are always integral ids) are `Int`.
* The sqlite database is a pure in-memory state (`UserDB`, `ArticleDB`)
  and each Go layer is a state-passing function on it.  Failures that the
  pure model cannot produce by itself (driver faults, cancellation) appear
  as explicit error values fed to the error-translation functions, which
  are embedded separately from the happy path so that claims about error
  mapping can quantify over them.
-/

namespace BlogApi

/-- A Go string, represented as its list of Unicode code points. -/
abbrev GoStr := List Nat

/-- One decoded JWT claim value, as it appears in the `jwtauth` claims map
(a `map[string]` of dynamically typed values): JSON numbers decode to `float64` (all values
occurring in this program are integral ids, modelled as `Int`), strings to
`string`; `other` stands for any further dynamic type, which the `switch`
in `CheckClaim` does not match. -/
inductive ClaimVal
  | num (n : Int)
  | str (s : GoStr)
  | other
deriving DecidableEq, Repr

/-- The claims map attached to the request context by the auth middleware. -/
abbrev Claims := List (String × ClaimVal)

/-- Request context as the embedded code observes it: the claim set that
`jwtauth.FromContext` yields (`none` when extraction fails), plus the
cancellation flag of the Go `context.Context`. -/
structure GoCtx where
  claims : Option Claims
  cancelled : Bool := false
deriving DecidableEq, Repr

/-- Map access `claims[claim]` (returns `none` where Go yields `nil`). -/
def lookupClaim (cs : Claims) (k : String) : Option ClaimVal :=
  (cs.find? (fun p => p.1 == k)).map (fun p => p.2)

/-- The distinct error values `CheckClaim` can return (each is a wrapped
`fmt.Errorf`; only their presence and the `FromContext` case are
observable to callers). -/
inductive JwtErr
  | fromContext
  | parseFloat
  | numMismatch
  | strMismatch
deriving DecidableEq, Repr

/-- Decimal digit value of a code point, from `strconv` semantics:
code points 48..57 are the ASCII digits. -/
def digitVal (c : Nat) : Option Nat :=
  if 48 ≤ c ∧ c ≤ 57 then some (c - 48) else none

/-- Accumulating decimal reading of a code-point list; fails at the first
non-digit. -/
def digitsAux (acc : Nat) : GoStr → Option Nat
  | [] => some acc
  | c :: rest =>
    match digitVal c with
    | some d => digitsAux (10 * acc + d) rest
    | none => none

/-- Modelled from Go `strconv.ParseFloat(s, 64)` restricted to the strings
this program feeds it: it accepts a non-empty run of ASCII digits and
returns its integer value, rejecting everything else.  This is exact on
every single-rune string and every `strconv.Itoa` output of a non-negative
id, the only shapes the wired call sites produce; on other strings
(signs, fractions, exponents) the model declines where Go may accept, and
no theorem below visits such inputs. -/
def parseFloat64 (s : GoStr) : Option Int :=
  match s with
  | [] => none
  | _ => (digitsAux 0 s).map Int.ofNat

/-- Go conversion of an `int` to `rune` (which is `int32`):
two's-complement truncation into the interval from -2^31 up to but
excluding 2^31. -/
def toInt32 (n : Int) : Int :=
  (n + 2147483648) % 4294967296 - 2147483648

/-- Go `string(rune(n))` for an `int` argument: the `int` is first
truncated to the 32-bit `rune` (`toInt32`), and the resulting value
yields the one-code-point string it numbers, with out-of-range values
and surrogate halves replaced by U+FFFD, as the Go spec prescribes for
the integer-to-string conversion. -/
def goStringRune (n : Int) : GoStr :=
  if (0 ≤ toInt32 n ∧ toInt32 n < 0xD800) ∨ (0xDFFF < toInt32 n ∧ toInt32 n < 0x110000)
  then [(toInt32 n).toNat] else [0xFFFD]

/-- Go `strconv.Itoa(n)` for the non-negative ids this program passes it
(digit run of the decimal representation). -/
def goItoa (n : Int) : GoStr :=
  (toString n.toNat).toList.map Char.toNat

/-- Embedded from `jwt.CheckClaim` (lib/jwt, part_005:30-67).  Returns the
`(bool, error)` pair: context-extraction failure yields `(false, err)`;
a `float64` claim is compared against `strconv.ParseFloat(expectedClaim)`
(parse failure `(false, err)`, mismatch `return true, fmt.Errorf(...)`,
match falls through to `return true, nil`); a `string` claim mismatches
with `(false, err)`; any other type - including an absent claim, whose
map access yields `nil` - matches no `switch` case and falls through to
`return true, nil`.  The dead `c.(float64)` / `c.(string)` re-assertions
inside the matching cases cannot fail and are omitted. -/
def checkClaim (ctx : GoCtx) (claim : String) (expectedClaim : GoStr) : Bool × Option JwtErr :=
  match ctx.claims with
  | none => (false, some JwtErr.fromContext)
  | some cs =>
    match lookupClaim cs claim with
    | some (ClaimVal.num n) =>
      match parseFloat64 expectedClaim with
      | none => (false, some JwtErr.parseFloat)
      | some e => if n ≠ e then (true, some JwtErr.numMismatch) else (true, none)
    | some (ClaimVal.str s) =>
      if s ≠ expectedClaim then (false, some JwtErr.strMismatch) else (true, none)
    | _ => (true, none)

/-- Handler response as rendered through `resp.Err` / the OK envelope
(article handlers render no payload on the paths embedded here). -/
inductive HResp
  | ok
  | errMsg (msg : String)
deriving DecidableEq, Repr

/-- A decoded article request body / `models.Article` value (part_007):
`ID`, `Title`, `Content`, `UserID`; the `PublishDate` pointer is `nil` in
every decoded request on the embedded paths and is omitted. -/
structure GoArticle where
  id : Int
  title : String
  content : String
  userId : Int
deriving DecidableEq, Repr

/-- One row of the sqlite `articles` table (columns the embedded paths
touch): id, title, content and the stored author column. -/
structure ArticleRow where
  id : Int
  title : String
  content : String
  authorId : Int
deriving DecidableEq, Repr

/-- The articles table. -/
abbrev ArticleDB := List ArticleRow

/-- `UPDATE articles SET title = ? WHERE id = ?` (no row matched is still
success for an `Exec`; the `ErrNoRows` branch of the Go wrapper is
unreachable for it). -/
def dbUpdateArticleTitle (db : ArticleDB) (id : Int) (title : String) : ArticleDB :=
  db.map (fun a => if a.id == id then { a with title := title } else a)

/-- `UPDATE articles SET content = ? WHERE id = ?`. -/
def dbUpdateArticleContent (db : ArticleDB) (id : Int) (content : String) : ArticleDB :=
  db.map (fun a => if a.id == id then { a with content := content } else a)

/-- `DELETE FROM articles WHERE id = ?` (deleting a missing id is also
success). -/
def dbRemoveArticle (db : ArticleDB) (id : Int) : ArticleDB :=
  db.filter (fun a => a.id != id)

/-- Embedded from the first `service.article.Update` (part_003:157-183):
update the title if the supplied title is non-empty, the content if the
supplied content is non-empty, independently.  On the pure store both
storage calls succeed, so the returned error is `nil`; only the state is
modelled. -/
def articleServiceUpdateV1 (art : GoArticle) (db : ArticleDB) : ArticleDB :=
  let db1 := if art.title != "" then dbUpdateArticleTitle db art.id art.title else db
  if art.content != "" then dbUpdateArticleContent db1 art.id art.content else db1

/-- Embedded from the second `service.article.Update` (part_003:293-316),
the variant the wired handler's interface matches: the conditions test
`== ""`, so each field is written exactly when the supplied value is
EMPTY (writing that empty value), and the two storage results are
discarded (`err` is never assigned), so the function always returns
`nil`. -/
def articleServiceUpdateV2 (art : GoArticle) (db : ArticleDB) : ArticleDB :=
  let db1 := if art.title == "" then dbUpdateArticleTitle db art.id art.title else db
  if art.content == "" then dbUpdateArticleContent db1 art.id art.content else db1

/-- Embedded from the wired article `update` handler
(internal/http-server/handlers/article/article.go:136-173): decode the
body, call `jwt.CheckClaim(ctx, "uid", string(rune(art.UserID)))` - the
expected value is the one-code-point string of the BODY's `user_id` -
render `not enough rights` when unsatisfied, `internal error` when the
check returned an error, and otherwise pass the body to the service
(`articleServiceUpdateV2`, whose error is always `nil`). -/
def articleUpdateHandler (ctx : GoCtx) (art : GoArticle) (db : ArticleDB) : HResp × ArticleDB :=
  let sc := checkClaim ctx "uid" (goStringRune art.userId)
  if !sc.1 then (HResp.errMsg "not enough rights", db)
  else if sc.2.isSome then (HResp.errMsg "internal error", db)
  else (HResp.ok, articleServiceUpdateV2 art db)

/-- Go `strconv.Atoi` on the URL parameter strings this program produces:
an optional sign followed by a digit run. -/
def goAtoi (s : GoStr) : Option Int :=
  match s with
  | 43 :: rest => parseFloat64 rest
  | 45 :: rest => (parseFloat64 rest).map (fun n => -n)
  | _ => parseFloat64 s

/-- Embedded from the wired article `remove` handler
(internal/http-server/handlers/article/article.go:175-199): parse the id
from the URL and delete through the service.  The request context is a
parameter only to exhibit that the source performs NO `CheckClaim` (or
any other ownership check) before deleting. -/
def articleRemoveHandler (_ctx : GoCtx) (idParam : GoStr) (db : ArticleDB) : HResp × ArticleDB :=
  match goAtoi idParam with
  | none => (HResp.errMsg "internal error", db)
  | some id => (HResp.ok, dbRemoveArticle db id)

/-- Modelled from the spec (4.1 Credential Codec) for the external
`golang.org/x/crypto/bcrypt` collaborator, which is not part of this
repository: `GenerateFromPassword` at the default cost.  The salt is
abstracted away, keeping the functional contract the code relies on
(deterministic hash whose verification accepts exactly the hashed
password); hashing never fails on the strings this program passes. -/
def bcryptHash (password : String) : String :=
  "bcrypt$" ++ password

/-- Modelled from the spec (4.1): `bcrypt.CompareHashAndPassword`, `true`
exactly when the password matches the hash. -/
def bcryptVerify (hash password : String) : Bool :=
  hash == bcryptHash password

/-- One row of the sqlite `users` table. -/
structure UserRow where
  id : Int
  name : String
  passHash : String
  regDate : Int
  status : String
deriving DecidableEq, Repr

/-- The users table plus the AUTOINCREMENT counter that assigns ids. -/
structure UserDB where
  rows : List UserRow
  nextId : Int
deriving DecidableEq, Repr

/-- The error classes a user-storage call can yield, as the service layer
can distinguish them:
* `userExists` - `storage.ErrUserExists`, wrapped by the sqlite layer for
  a UNIQUE-constraint violation;
* `noRows` - a raw wrapped `sql.ErrNoRows` from a scan of an absent row
  (the sqlite wrappers' not-found branches test a `sqlite3.Error`
  extended code and never fire for it, so the row-absent error reaches
  the service unwrapped to any sentinel);
* `canceled` - a context cancellation class error, wrapped raw;
* `fault` - any other driver/transport failure, wrapped raw. -/
inductive StorageErr
  | userExists
  | noRows
  | canceled
  | fault
deriving DecidableEq, Repr

/-- Embedded from `storage.sqlite.Register` (part_002:64-83): INSERT with
the UNIQUE(name) constraint; a conflict is mapped to
`storage.ErrUserExists`, otherwise the row is inserted with the next
assigned id, the supplied hash, the current time and the default empty
status. -/
def storageRegister (db : UserDB) (username passHash : String) (now : Int) :
    Except StorageErr Unit × UserDB :=
  if db.rows.any (fun u => u.name == username)
  then (Except.error StorageErr.userExists, db)
  else (Except.ok (),
    ⟨db.rows ++ [⟨db.nextId, username, passHash, now, ""⟩], db.nextId + 1⟩)

/-- Embedded from `storage.sqlite.UserByName` (part_002:85-107): SELECT
id, name, pass_hash - only those three columns are scanned, so the
returned record carries zero values for the rest; an absent row surfaces
as the raw no-rows error (see `StorageErr.noRows`). -/
def storageUserByName (db : UserDB) (username : String) : Except StorageErr UserRow :=
  match db.rows.find? (fun u => u.name == username) with
  | some u => Except.ok ⟨u.id, u.name, u.passHash, 0, ""⟩
  | none => Except.error StorageErr.noRows

/-- The service-layer error kinds of `service.user`. -/
inductive SvcErr
  | userExists
  | wrapped (e : StorageErr)
deriving DecidableEq, Repr

/-- Embedded from the error translation of `service.user.Register`
(internal/service/user/user.go:63-71): `errors.Is(err,
storage.ErrUserExists)` maps the conflict to the service
`ErrUserExists`; every other storage error is wrapped with the operation
name and returned as is. -/
def serviceRegisterMap : Except StorageErr Unit → Except SvcErr Unit
  | Except.ok _ => Except.ok ()
  | Except.error StorageErr.userExists => Except.error SvcErr.userExists
  | Except.error e => Except.error (SvcErr.wrapped e)

/-- Embedded from `service.user.Register`
(internal/service/user/user.go:47-74): hash the password with bcrypt
(no validation happens at this layer), call `Storage.Register` on a fresh
background-derived context, and translate the storage error. -/
def serviceRegister (db : UserDB) (username password : String) (now : Int) :
    Except SvcErr Unit × UserDB :=
  let r := storageRegister db username (bcryptHash password) now
  (serviceRegisterMap r.1, r.2)

/-- The JWT issued by `jwt.NewToken` (part_005:15-28), kept structured:
the claim set is `uid = user.ID`, `exp = now + duration`, signed HS256
with the secret.  `renderToken` below is its wire string. -/
structure Token where
  uid : Int
  exp : Int
  secret : String
deriving DecidableEq, Repr

/-- Embedded from `jwt.NewToken`: claims `uid := user.ID` and
`exp := now + duration`. -/
def newToken (user : UserRow) (duration now : Int) (secret : String) : Token :=
  ⟨user.id, now + duration, secret⟩

/-- Modelled from the spec (4.2) for the external `golang-jwt` signing:
the serialized compact form `header.payload.signature`; its exact bytes
are abstract, but it always begins with the base64 JSON header, so it is
never empty, and its payload determines the claims of `Token`. -/
def renderToken (t : Token) : String :=
  "eyJ." ++ toString t.uid ++ "." ++ t.secret

/-- The outcome of `service.user.Login` as its caller can distinguish it. -/
inductive LoginOutcome
  | ok (t : Token)
  | userNotFound
  | incorrectPassword
deriving DecidableEq, Repr

/-- Embedded from `service.user.Login`
(internal/service/user/user.go:76-106) as a function of the storage
response: the guard is `errors.As(err, ptr)` where `ptr` points to the
`error` INTERFACE variable `storage.ErrUserNotFound` - such a target is
satisfied by the first error of any chain, so EVERY storage failure takes
the user-not-found branch; a found user's stored hash is then verified
with bcrypt (`incorrectPassword` on mismatch) and a token is issued with
the configured TTL. -/
def serviceLoginStep (r : Except StorageErr UserRow) (password secret : String)
    (ttl now : Int) : LoginOutcome :=
  match r with
  | Except.error _ => LoginOutcome.userNotFound
  | Except.ok user =>
    if bcryptVerify user.passHash password
    then LoginOutcome.ok (newToken user ttl now secret)
    else LoginOutcome.incorrectPassword

/-- `service.user.Login` composed with the storage model. -/
def serviceLogin (db : UserDB) (username password secret : String) (ttl now : Int) :
    LoginOutcome :=
  serviceLoginStep (storageUserByName db username) password secret ttl now

/-- The rendered response envelope of the user handlers (status, error
message, token; the `user` payload is modelled separately for the claim
about serialization). -/
structure Envelope where
  status : String
  error : String := ""
  token : String := ""
deriving DecidableEq, Repr

/-- The `resp.StatusOk` envelope. -/
def okEnvelope : Envelope := ⟨"OK", "", ""⟩

/-- The `resp.StatusError` envelope with a message. -/
def errEnvelope (msg : String) : Envelope := ⟨"Error", msg, ""⟩

/-- A decoded `req.Credentials` body. -/
structure GoCredentials where
  username : String
  password : String
deriving DecidableEq, Repr

/-- Embedded from the `register` handler error rendering
(internal/http-server/handlers/user/user.go:730-751, third variant, the
one whose interface matches the cited int64 service): the service
`ErrUserExists` renders `user already exists`, every other service error
renders `internal error`. -/
def registerRespond : Except SvcErr Unit → Envelope
  | Except.ok _ => okEnvelope
  | Except.error SvcErr.userExists => errEnvelope "user already exists"
  | Except.error _ => errEnvelope "internal error"

/-- Embedded from the `register` handler
(internal/http-server/handlers/user/user.go:696-752): an empty username
or password is rejected with the validation envelope before the service
(and hence storage) is ever invoked; otherwise the service result is
rendered by `registerRespond`. -/
def registerHandler (cred : GoCredentials) (db : UserDB) (now : Int) :
    Envelope × UserDB :=
  if cred.username == "" then (errEnvelope "invalid credentials: username is empty", db)
  else if cred.password == "" then (errEnvelope "invalid credentials: password is empty", db)
  else
    let r := serviceRegister db cred.username cred.password now
    (registerRespond r.1, r.2)

/-- Embedded from the `login` handler
(internal/http-server/handlers/user/user.go:647-694): empty-credential
validation, then EVERY `service.Login` error - user not found and
incorrect password alike - renders the one generic `internal error`
envelope, with no token and nothing derived from the stored hash. -/
def loginHandler (cred : GoCredentials) (db : UserDB) (secret : String) (ttl now : Int) :
    Envelope :=
  if cred.username == "" then errEnvelope "invalid credentials: username is empty"
  else if cred.password == "" then errEnvelope "invalid credentials: password is empty"
  else
    match serviceLogin db cred.username cred.password secret ttl now with
    | LoginOutcome.ok t => ⟨"OK", "", renderToken t⟩
    | _ => errEnvelope "internal error"

/-- A decoded profile-update body (`req.Update` / `req.Status`): optional
new username and status. -/
structure UpdateReq where
  userName : String
  status : String
deriving DecidableEq, Repr

/-- `UPDATE users SET name = ? WHERE id = ?` (pure path; the UNIQUE(name)
conflict a concurrent rename could raise is outside the states the
theorems below visit). -/
def dbUpdateUserName (db : UserDB) (id : Int) (name : String) : UserDB :=
  ⟨db.rows.map (fun u => if u.id == id then { u with name := name } else u), db.nextId⟩

/-- `UPDATE users SET status = ? WHERE id = ?`. -/
def dbUpdateStatus (db : UserDB) (id : Int) (status : String) : UserDB :=
  ⟨db.rows.map (fun u => if u.id == id then { u with status := status } else u), db.nextId⟩

/-- Embedded from the FIRST user `update` handler variant
(internal/http-server/handlers/user/user.go:175-255): guard via
`jwt.CheckClaim(ctx, "uid", id)` with the raw URL parameter as the
expected claim (testing `!satisfied` before `err != nil`), convert the
parameter with `strconv.Atoi`, update the username only when the supplied
one is non-empty - and then call `UpdateStatus` UNCONDITIONALLY with the
body's status, empty or not (source line 244 has no emptiness guard). -/
def userUpdateHandlerV1 (ctx : GoCtx) (idParam : GoStr) (upd : UpdateReq) (db : UserDB) :
    Envelope × UserDB :=
  let sc := checkClaim ctx "uid" idParam
  if !sc.1 then (errEnvelope "not enough rights", db)
  else if sc.2.isSome then (errEnvelope "internal error", db)
  else
    match goAtoi idParam with
    | none => (errEnvelope "internal error", db)
    | some userID =>
      let db1 := if upd.userName != "" then dbUpdateUserName db userID upd.userName else db
      let db2 := dbUpdateStatus db1 userID upd.status
      (okEnvelope, db2)

/-- Embedded from the THIRD user `update` handler variant
(internal/http-server/handlers/user/user.go:773-836): extract the claims
directly (`return` with NO rendered body when extraction or the `float64`
assertion fails, hence the `Option Envelope`), take the id as
`strconv.Atoi` with the error ignored (0 on failure), compare
`id != int(uid)` for the permission check, then apply the username update
and the status update EACH only when the supplied value is non-empty. -/
def userUpdateHandlerV3 (ctx : GoCtx) (idParam : GoStr) (upd : UpdateReq) (db : UserDB) :
    Option Envelope × UserDB :=
  match ctx.claims with
  | none => (none, db)
  | some cs =>
    match lookupClaim cs "uid" with
    | some (ClaimVal.num uid) =>
      let id := (goAtoi idParam).getD 0
      if id != uid then (some (errEnvelope "there are not enough necessary rights"), db)
      else
        let db1 := if upd.userName != "" then dbUpdateUserName db id upd.userName else db
        let db2 := if upd.status != "" then dbUpdateStatus db1 id upd.status else db1
        (some okEnvelope, db2)
    | _ => (none, db)

/-- The fields of a `models.User` as the `get` handler's service hands it
to the JSON renderer (mirror of internal/domain/models/user.go: outer
fields plus the embedded `Credentials`). -/
structure GoUser where
  id : Int
  regDate : Option Int
  status : String
  articlesId : List Int
  username : String
  password : String
  passHash : String
deriving DecidableEq, Repr

/-- Embedded from `storage.sqlite.UserByID` (part_002:109-131): SELECT
id, name, registration_date, status - `pass_hash` is NOT in the column
list, so the scanned record's `PassHash` (like `Password` and
`ArticlesID`) keeps its zero value; an absent row surfaces as the raw
no-rows error. -/
def storageUserByID (db : UserDB) (id : Int) : Except StorageErr GoUser :=
  match db.rows.find? (fun u => u.id == id) with
  | some u => Except.ok ⟨u.id, some u.regDate, u.status, [], u.name, "", ""⟩
  | none => Except.error StorageErr.noRows

mutual

/-- A JSON value, restricted to the shapes the embedded renderers emit. -/
inductive JVal
  | jnull
  | jnum (n : Int)
  | jstr (s : String)
  | jarrNum (ns : List Int)
  | jobj (fs : JFields)

/-- The field list of a JSON object. -/
inductive JFields
  | fnil
  | fcons (k : String) (v : JVal) (rest : JFields)

end

/-- Conditional field emission, the shape `omitempty` gives each tagged
field. -/
def jfield (emit : Bool) (k : String) (v : JVal) (rest : JFields) : JFields :=
  if emit then JFields.fcons k v rest else rest

mutual

/-- Whether a key occurs anywhere in a JSON value, nested objects
included. -/
def jHasKey : JVal → String → Bool
  | JVal.jobj fs, k => jFieldsHasKey fs k
  | _, _ => false

/-- Whether a key occurs in a field list (as a key or inside a value). -/
def jFieldsHasKey : JFields → String → Bool
  | JFields.fnil, _ => false
  | JFields.fcons k v rest, key => k == key || jHasKey v key || jFieldsHasKey rest key

end

/-- Embedded from the `encoding/json` rendering of `models.User` under
the struct tags of internal/domain/models/user.go: every outer field is
`omitempty` (zero values are dropped; the `*time.Time` pointer when
`nil`); the embedded `Credentials` carries the tag
`json:"credentials,omitempty"`, and since `omitempty` has no effect on a
struct-typed value the `credentials` object is always emitted, holding
its own `omitempty` fields `username`, `password` and `pass_hash`. -/
def renderUser (u : GoUser) : JVal :=
  JVal.jobj
    (jfield (u.id != 0) "id" (JVal.jnum u.id)
    (jfield u.regDate.isSome "registration_date" (JVal.jnum (u.regDate.getD 0))
    (jfield (u.status != "") "status" (JVal.jstr u.status)
    (jfield (!u.articlesId.isEmpty) "articles_id" (JVal.jarrNum u.articlesId)
    (JFields.fcons "credentials"
      (JVal.jobj
        (jfield (u.username != "") "username" (JVal.jstr u.username)
        (jfield (u.password != "") "password" (JVal.jstr u.password)
        (jfield (u.passHash != "") "pass_hash" (JVal.jstr u.passHash)
        JFields.fnil))))
      JFields.fnil)))))

/-- Embedded from the unauthenticated get-user-by-id endpoint
(handler `get`, internal/http-server/handlers/user/user.go:754-771,
through `service.user.UserByID`, user.go:108-127, which passes the
storage error through): a found user renders the OK envelope with the
`user` payload, any failure renders the `internal error` envelope with
no user at all. -/
def getUserResponse (db : UserDB) (id : Int) : JVal :=
  match storageUserByID db id with
  | Except.error _ =>
    JVal.jobj (JFields.fcons "status" (JVal.jstr "Error")
      (JFields.fcons "error" (JVal.jstr "internal error") JFields.fnil))
  | Except.ok u =>
    JVal.jobj (JFields.fcons "status" (JVal.jstr "OK")
      (JFields.fcons "user" (renderUser u) JFields.fnil))

/-- The only observable of a Go `context.Context` the embedding needs:
whether it has been cancelled. -/
structure ReqCtx where
  cancelled : Bool
deriving DecidableEq, Repr

/-- `context.Background()`: never cancelled. -/
def backgroundCtx : ReqCtx := ⟨false⟩

/-- The context `service.user.Register` passes to `Storage.Register`:
`ctx, cancel := context.WithCancel(context.Background())`
(internal/service/user/user.go:60-61), with `cancel()` deferred past the
synchronous call.  The inbound request's context is a parameter only to
exhibit that the source cannot consult it - the Go method signature has
no context parameter at all. -/
def serviceRegisterStorageCtx (_reqCtx : ReqCtx) : ReqCtx := backgroundCtx

/-- The context `service.article.GetAll` passes to
`Storage.GetAllArticles` (part_003:100-104): likewise a fresh
`WithCancel(Background())` context, with the request context
unreachable. -/
def articleGetAllStorageCtx (_reqCtx : ReqCtx) : ReqCtx := backgroundCtx

/-- C1: contrary to the claim, the ownership check does NOT return false
for an absent, malformed or numerically mismatched uid claim: with the
claim set present but holding no `uid` entry it returns `(true, nil)` -
silently authorized; with a `uid` of an unexpected dynamic type it also
returns `(true, nil)`; with a numeric `uid` differing from the expected
owner id the returned boolean is still `true` (only the error is
non-nil).  Only the missing-claim-set case behaves as claimed, yielding
the distinct context-extraction error with `false`. -/
theorem checkClaim_true_on_absent_and_mismatch :
    checkClaim ⟨some [], false⟩ "uid" [49] = (true, none)
    ∧ checkClaim ⟨some [("uid", ClaimVal.other)], false⟩ "uid" [49] = (true, none)
    ∧ (checkClaim ⟨some [("uid", ClaimVal.num 2)], false⟩ "uid" [49]).1 = true
    ∧ checkClaim ⟨none, false⟩ "uid" [49] = (false, some JwtErr.fromContext) := by
  refine ⟨rfl, rfl, rfl, rfl⟩

/-- C2: contrary to the claim, the wired article handlers never consult
the stored `author_id`: `remove` performs no ownership check at all and
deletes article 3 (stored author 1) for a caller whose token uid is 2,
and `update` authorizes against the request body's `user_id` - a caller
with token uid 2 sending a forged body with `user_id = 50` (the code
point of the character 2) passes the check and mutates the article of
author 1. -/
theorem articleHandlers_mutate_without_owner_check :
    articleRemoveHandler ⟨some [("uid", ClaimVal.num 2)], false⟩ [51]
        [⟨3, "t", "c", 1⟩] = (HResp.ok, [])
    ∧ articleUpdateHandler ⟨some [("uid", ClaimVal.num 2)], false⟩ ⟨3, "hacked", "", 50⟩
        [⟨3, "t", "c", 1⟩] = (HResp.ok, [⟨3, "t", "", 1⟩]) := by
  refine ⟨rfl, rfl⟩

/-- C5: contrary to the claim, the first wired profile-update handler
calls `UpdateStatus` unconditionally: the owner of user 5 (stored status
`active`) sending a body with only a new username and an empty status
gets the username applied AND the stored status overwritten with the
empty string; the third handler variant, on the same input, leaves the
status `active` as the claim describes. -/
theorem userUpdateV1_overwrites_status_with_empty :
    userUpdateHandlerV1 ⟨some [("uid", ClaimVal.num 5)], false⟩ [53] ⟨"bob", ""⟩
        ⟨[⟨5, "alice", "h", 0, "active"⟩], 6⟩
      = (okEnvelope, ⟨[⟨5, "bob", "h", 0, ""⟩], 6⟩)
    ∧ userUpdateHandlerV3 ⟨some [("uid", ClaimVal.num 5)], false⟩ [53] ⟨"bob", ""⟩
        ⟨[⟨5, "alice", "h", 0, "active"⟩], 6⟩
      = (some okEnvelope, ⟨[⟨5, "bob", "h", 0, "active"⟩], 6⟩) := by
  refine ⟨rfl, rfl⟩

/-- C6: contrary to the claim, the second article-service `Update`
variant has its emptiness conditions inverted: on an article update
supplying a non-empty title and an empty content, the non-empty title is
NOT applied and the stored content IS overwritten with the empty string;
the first variant, on the same input, applies exactly the non-empty
field as the claim describes. -/
theorem articleUpdateV2_inverted_conditions :
    articleServiceUpdateV2 ⟨1, "new", "", 7⟩ [⟨1, "old", "body", 7⟩]
      = [⟨1, "old", "", 7⟩]
    ∧ articleServiceUpdateV1 ⟨1, "new", "", 7⟩ [⟨1, "old", "body", 7⟩]
      = [⟨1, "new", "body", 7⟩] := by
  refine ⟨rfl, rfl⟩

/-- C7: the `errors.As` guard of `Login` (its target a pointer to an
`error` interface variable) matches EVERY storage failure, so a generic
storage fault is also mapped to the user-not-found branch - the claimed
`only in that case` fails.  The remaining parts of the claim hold: an
unknown username yields the user-not-found outcome, a wrong password for
an existing user yields the incorrect-password outcome, and at the
handler layer both render the identical generic `internal error`
envelope, with no token and nothing derived from the stored hash. -/
theorem login_maps_any_storage_error_to_notfound :
    serviceLoginStep (Except.error StorageErr.fault) "pw123" "s" 3600 0
      = LoginOutcome.userNotFound
    ∧ serviceLogin ⟨[⟨1, "alice", bcryptHash "pw123", 0, ""⟩], 2⟩ "ghost" "pw123" "s" 3600 0
      = LoginOutcome.userNotFound
    ∧ serviceLogin ⟨[⟨1, "alice", bcryptHash "pw123", 0, ""⟩], 2⟩ "alice" "wrong" "s" 3600 0
      = LoginOutcome.incorrectPassword
    ∧ loginHandler ⟨"alice", "wrong"⟩ ⟨[⟨1, "alice", bcryptHash "pw123", 0, ""⟩], 2⟩ "s" 3600 0
      = errEnvelope "internal error"
    ∧ loginHandler ⟨"ghost", "pw123"⟩ ⟨[⟨1, "alice", bcryptHash "pw123", 0, ""⟩], 2⟩ "s" 3600 0
      = errEnvelope "internal error" := by
  refine ⟨rfl, rfl, rfl, rfl, rfl⟩

/-- C10 counterexample: the claim `the context passed to the Storage call
carries the inbound request's cancellation signal` is false at the
concrete input of an already-cancelled request context - the context the
service hands to storage is the fresh background-derived one, still not
cancelled. -/
theorem storageCtx_drops_request_cancellation :
    ¬ ((serviceRegisterStorageCtx ⟨true⟩).cancelled = (⟨true⟩ : ReqCtx).cancelled) := by
  decide

/-- C10 amended: each embedded service operation passes Storage a context
freshly derived from `context.Background`, identical for every inbound
request context (the service methods have no context parameter at all),
and a cancellation-class storage failure is wrapped and rendered through
the same generic internal-error path as any other storage fault, not as
a distinct outcome. -/
theorem storageCtx_background_and_cancel_mapping :
    ∀ rc : ReqCtx,
      serviceRegisterStorageCtx rc = backgroundCtx
      ∧ articleGetAllStorageCtx rc = backgroundCtx
      ∧ serviceRegisterMap (Except.error StorageErr.canceled)
          = Except.error (SvcErr.wrapped StorageErr.canceled)
      ∧ registerRespond (Except.error (SvcErr.wrapped StorageErr.canceled))
          = errEnvelope "internal error"
      ∧ registerRespond (Except.error (SvcErr.wrapped StorageErr.fault))
          = errEnvelope "internal error" := by
  exact fun rc => ⟨rfl, rfl, rfl, rfl, rfl⟩

/-- C4: in the wired article update handler the expected claim value is
`string(rune(art.UserID))` - the body's `user_id` truncated to the
32-bit `rune` and taken as a single code point.  For a numeric uid
claim the update proceeds exactly when that one-code-point string
parses as a float equal to the token uid; in particular a token for
uid 1 with a body `user_id` of 49 (the code point of the character 1)
passes the check although 1 is not 49 - and so does `user_id`
4294967345, that is 2^32 + 49, whose int32 truncation is again 49 -
and for every `user_id` between 10 and 47, whose code point is not an
ASCII digit, the check fails with the forbidden rendering even when
the token uid equals the body `user_id`. -/
theorem articleUpdate_authz_is_codepoint_parse :
    (∀ (uidv : Int) (art : GoArticle) (db : ArticleDB),
      (articleUpdateHandler ⟨some [("uid", ClaimVal.num uidv)], false⟩ art db).1 = HResp.ok
      ↔ parseFloat64 (goStringRune art.userId) = some uidv)
    ∧ ((articleUpdateHandler ⟨some [("uid", ClaimVal.num 1)], false⟩ ⟨3, "x", "y", 49⟩ []).1
        = HResp.ok ∧ (1 : Int) ≠ 49)
    ∧ ((articleUpdateHandler ⟨some [("uid", ClaimVal.num 1)], false⟩
          ⟨3, "x", "y", 4294967345⟩ []).1 = HResp.ok ∧ (1 : Int) ≠ 4294967345)
    ∧ (∀ n : Int, 10 ≤ n → n ≤ 47 →
      (articleUpdateHandler ⟨some [("uid", ClaimVal.num n)], false⟩ ⟨3, "x", "y", n⟩ []).1
        = HResp.errMsg "not enough rights") := by
  have main : ∀ (uidv : Int) (art : GoArticle) (db : ArticleDB),
      (articleUpdateHandler ⟨some [("uid", ClaimVal.num uidv)], false⟩ art db).1 = HResp.ok
      ↔ parseFloat64 (goStringRune art.userId) = some uidv := by
    intro uidv art db
    cases hp : parseFloat64 (goStringRune art.userId) with
    | none => simp [articleUpdateHandler, checkClaim, lookupClaim, hp]
    | some e =>
      by_cases he : uidv = e
      · subst he
        simp [articleUpdateHandler, checkClaim, lookupClaim, hp]
      · simp [articleUpdateHandler, checkClaim, lookupClaim, hp, he, Ne.symm he]
  refine ⟨main, ⟨rfl, by decide⟩, ⟨rfl, by decide⟩, ?_⟩
  intro n h1 h2
  have ht : toInt32 n = n := by
    unfold toInt32
    omega
  have hv : goStringRune n = [n.toNat] := by
    unfold goStringRune
    rw [ht, if_pos]
    left
    constructor <;> omega
  have hd : digitVal n.toNat = none := by
    unfold digitVal
    rw [if_neg]
    omega
  have hp : parseFloat64 (goStringRune n) = none := by
    rw [hv]
    simp [parseFloat64, digitsAux, hd]
  simp [articleUpdateHandler, checkClaim, lookupClaim, hp]

/-- Witness for C4: the range conjunct instantiated at the concrete
`user_id` 20 (code point U+0014, not a digit) with the caller being the
true owner. -/
theorem articleUpdate_authz_is_codepoint_parse_witness :
    ((10 : Int) ≤ 20 ∧ (20 : Int) ≤ 47)
    ∧ (articleUpdateHandler ⟨some [("uid", ClaimVal.num 20)], false⟩ ⟨3, "x", "y", 20⟩ []).1
        = HResp.errMsg "not enough rights" :=
  ⟨by decide, articleUpdate_authz_is_codepoint_parse.2.2.2 20 (by decide) (by decide)⟩

/-- A rendered token string is never empty: it begins with the compact
header segment. -/
theorem renderToken_ne_empty (t : Token) : renderToken t ≠ "" := by
  unfold renderToken
  intro h
  have hlen := congrArg String.length h
  rw [String.length_append, String.length_append, String.length_append] at hlen
  have h4 : String.length "eyJ." = 4 := rfl
  have h0 : String.length "" = 0 := rfl
  rw [h4, h0] at hlen
  omega

/-- C3: for every storage state in which the username is free (so
`Register` succeeds) and non-empty credentials, registering and then
logging in with the same credentials succeeds: `Register` returns ok,
and `Login` returns a token whose `uid` claim is exactly the id the
storage AUTOINCREMENT counter assigned to the created row
(`db.nextId`), with a non-empty serialized form. -/
theorem register_then_login_roundtrip :
    ∀ (db : UserDB) (username password secret : String) (nowR ttl nowL : Int),
      username ≠ "" → password ≠ "" →
      (∀ u ∈ db.rows, u.name ≠ username) →
      (serviceRegister db username password nowR).1 = Except.ok ()
      ∧ ∃ t : Token,
          serviceLogin (serviceRegister db username password nowR).2
              username password secret ttl nowL = LoginOutcome.ok t
          ∧ t.uid = db.nextId
          ∧ renderToken t ≠ "" := by
  intro db username password secret nowR ttl nowL _hu _hp hfree
  have hany : db.rows.any (fun x => x.name == username) = false := by
    rw [Bool.eq_false_iff]
    rw [Ne, List.any_eq_true]
    rintro ⟨x, hx, hbx⟩
    exact hfree x hx (by rwa [beq_iff_eq] at hbx)
  have hreg : serviceRegister db username password nowR
      = (Except.ok (), ⟨db.rows ++ [⟨db.nextId, username, bcryptHash password, nowR, ""⟩],
          db.nextId + 1⟩) := by
    simp [serviceRegister, storageRegister, serviceRegisterMap, hany]
  rw [hreg]
  refine ⟨rfl, ⟨db.nextId, nowL + ttl, secret⟩, ?_, rfl, renderToken_ne_empty _⟩
  have hnone : db.rows.find? (fun x => x.name == username) = none := by
    rw [List.find?_eq_none]
    intro x hx
    simp [beq_iff_eq]
    exact hfree x hx
  have hfind : List.find? (fun x => x.name == username)
      (db.rows ++ [⟨db.nextId, username, bcryptHash password, nowR, ""⟩])
      = some ⟨db.nextId, username, bcryptHash password, nowR, ""⟩ := by
    rw [List.find?_append, hnone]
    simp [List.find?]
  simp [serviceLogin, storageUserByName, hfind, serviceLoginStep, bcryptVerify, newToken]

/-- Witness for C3: the empty store, username alice, password pw123. -/
theorem register_then_login_roundtrip_witness :
    (("alice" : String) ≠ "" ∧ ("pw123" : String) ≠ ""
      ∧ (∀ u ∈ (⟨[], 1⟩ : UserDB).rows, u.name ≠ "alice"))
    ∧ ((serviceRegister ⟨[], 1⟩ "alice" "pw123" 0).1 = Except.ok ()
      ∧ ∃ t : Token,
          serviceLogin (serviceRegister ⟨[], 1⟩ "alice" "pw123" 0).2
              "alice" "pw123" "secret" 3600 10 = LoginOutcome.ok t
          ∧ t.uid = 1
          ∧ renderToken t ≠ "") :=
  ⟨⟨by decide, by decide, by simp⟩,
    register_then_login_roundtrip ⟨[], 1⟩ "alice" "pw123" "secret" 0 3600 10
      (by decide) (by decide) (by simp)⟩

/-- C8: registration rejects an empty username or an empty password with
the validation envelope while leaving the store untouched (no storage
interaction); a username already present in the store yields the
user-already-exists envelope for every password, again without mutating
the store; and every storage failure other than the uniqueness conflict
is surfaced by the service as a wrapped error - never as `UserExists` -
which the handler renders as the generic internal error. -/
theorem register_rejects_empty_and_maps_conflict :
    (∀ (p : String) (db : UserDB) (now : Int),
      registerHandler ⟨"", p⟩ db now
        = (errEnvelope "invalid credentials: username is empty", db))
    ∧ (∀ (u : String) (db : UserDB) (now : Int), u ≠ "" →
      registerHandler ⟨u, ""⟩ db now
        = (errEnvelope "invalid credentials: password is empty", db))
    ∧ (∀ (u p : String) (db : UserDB) (now : Int), u ≠ "" → p ≠ "" →
      (∃ x ∈ db.rows, x.name = u) →
      registerHandler ⟨u, p⟩ db now = (errEnvelope "user already exists", db))
    ∧ (∀ e : StorageErr, e ≠ StorageErr.userExists →
      serviceRegisterMap (Except.error e) ≠ Except.error SvcErr.userExists
      ∧ registerRespond (serviceRegisterMap (Except.error e)) = errEnvelope "internal error") := by
  refine ⟨fun p db now => rfl, ?_, ?_, ?_⟩
  · intro u db now hu
    have hbu : (u == "") = false := beq_eq_false_iff_ne.mpr hu
    simp [registerHandler, hbu]
  · intro u p db now hu hp hex
    have hbu : (u == "") = false := beq_eq_false_iff_ne.mpr hu
    have hbp : (p == "") = false := beq_eq_false_iff_ne.mpr hp
    have hany : db.rows.any (fun x => x.name == u) = true := by
      rw [List.any_eq_true]
      rcases hex with ⟨x, hx, hname⟩
      exact ⟨x, hx, by simp [hname]⟩
    simp [registerHandler, hbu, hbp, serviceRegister, storageRegister, hany,
      serviceRegisterMap, registerRespond]
  · intro e he
    cases e with
    | userExists => exact absurd rfl he
    | noRows => exact ⟨by simp [serviceRegisterMap], rfl⟩
    | canceled => exact ⟨by simp [serviceRegisterMap], rfl⟩
    | fault => exact ⟨by simp [serviceRegisterMap], rfl⟩

/-- Witness for C8: the duplicate-username conjunct at a store already
holding the name bob, with a different password. -/
theorem register_rejects_empty_and_maps_conflict_witness :
    (("bob" : String) ≠ "" ∧ ("other" : String) ≠ ""
      ∧ (∃ x ∈ (⟨[⟨1, "bob", "h", 0, ""⟩], 2⟩ : UserDB).rows, x.name = "bob"))
    ∧ registerHandler ⟨"bob", "other"⟩ ⟨[⟨1, "bob", "h", 0, ""⟩], 2⟩ 5
        = (errEnvelope "user already exists", ⟨[⟨1, "bob", "h", 0, ""⟩], 2⟩) :=
  ⟨⟨by decide, by decide, ⟨⟨1, "bob", "h", 0, ""⟩, by simp, rfl⟩⟩,
    register_rejects_empty_and_maps_conflict.2.2.1 "bob" "other" ⟨[⟨1, "bob", "h", 0, ""⟩], 2⟩ 5
      (by decide) (by decide) ⟨⟨1, "bob", "h", 0, ""⟩, by simp, rfl⟩⟩

/-- Key search distributes over a conditionally emitted field. -/
theorem jFieldsHasKey_jfield (b : Bool) (k : String) (v : JVal) (rest : JFields)
    (key : String) :
    jFieldsHasKey (jfield b k v rest) key
      = ((b && (k == key || jHasKey v key)) || jFieldsHasKey rest key) := by
  cases b <;> simp [jfield, jFieldsHasKey]

/-- C9: no response of the unauthenticated get-user-by-id endpoint ever
contains a `pass_hash` field, for any store contents and any requested
id: the `UserByID` query never selects the hash column, so the scanned
record's hash keeps its zero value and the `omitempty` tag drops the
field from the rendered `credentials` object; the failure envelope
carries no user at all. -/
theorem getUser_never_renders_pass_hash :
    ∀ (db : UserDB) (id : Int),
      jHasKey (getUserResponse db id) "pass_hash" = false := by
  intro db id
  unfold getUserResponse storageUserByID
  cases hf : db.rows.find? (fun u => u.id == id) with
  | none => simp [jHasKey, jFieldsHasKey]
  | some x =>
    simp only [jHasKey, jFieldsHasKey, renderUser, jFieldsHasKey_jfield]
    simp

end BlogApi
